import Mathlib

set_option maxRecDepth 8000

/-!
Verification of the pancakeswap-sdk event-ingestion and market-analytics core.

Shallow embedding of the Rust source (src/tool.rs, src/events.rs, src/lib.rs,
src/analytics.rs, src/price.rs) into Lean:

* `U256` values are embedded as `Nat`; the `uint` crate's arithmetic operators
  panic on overflow (in every build profile), so checked operations return
  `Option Nat`, with `none` standing for a panic.
* `u64` values are embedded as `Nat`; the one reachable overflow in the code
  modelled here is the subtraction `current_height - confirmation_blocks`,
  embedded as a checked subtraction whose failure (`none`) stands for the
  arithmetic panic of checked builds.
* Rust slice indexing `&data[a..b]` panics when the range is out of bounds;
  it is embedded as `slice?` returning `Option`, with `none` standing for the
  panic.  A parser's result type `Option (Except String E)` therefore reads:
  `none` = panic, `some (.error m)` = returned `Err(m)`, `some (.ok e)` =
  returned `Ok(e)`.
* `f64` quantities that the code only adds, subtracts, divides and compares
  (arbitrage profits, liquidity scores) are embedded as `ℚ`; every branch in
  the embedded code compares values computed once and stored unchanged, so the
  control flow is that of any linearly ordered field and no NaN is reachable
  (all inputs come from `u128` conversions and nonzero divisors).
* Network reads (`get_amounts_out`, `simulate_swap_path`, reserve lookups,
  `get_block_number`, `get_logs`) are environment inputs and are passed as
  explicit arguments or oracle functions.
-/

namespace PancakeSdk

/-- Modulus of the 256-bit unsigned integer type. -/
def U256_MOD : Nat := 2 ^ 256

/-- `a * b` on `U256`; the uint crate panics on overflow (modelled as `none`). -/
def mul256 (a b : Nat) : Option Nat :=
  if a * b < U256_MOD then some (a * b) else none

/-- `a + b` on `U256`; the uint crate panics on overflow (modelled as `none`). -/
def add256 (a b : Nat) : Option Nat :=
  if a + b < U256_MOD then some (a + b) else none

/-- Checked unsigned subtraction: `a - b` panics (in checked builds) when
`b > a`; modelled as `none`. -/
def csub (a b : Nat) : Option Nat :=
  if b ≤ a then some (a - b) else none

/-! ## math_utils (src/tool.rs, lines 208-229) -/

/-- Embedding of `math_utils::calculate_amount_out`.
Mirrors the Rust source line by line:
zero `amount_in` returns zero, a zero reserve is an error, then
`amount_in_with_fee = amount_in * 997`,
`numerator = amount_in_with_fee * reserve_out`,
`denominator = reserve_in * 1000 + amount_in_with_fee`,
result `numerator / denominator` (flooring division). -/
def calculate_amount_out (amount_in reserve_in reserve_out : Nat) :
    Option (Except String Nat) :=
  if amount_in = 0 then some (.ok 0)
  else if reserve_in = 0 ∨ reserve_out = 0 then
    some (.error "Reserves cannot be zero")
  else
    match mul256 amount_in 997 with
    | none => none
    | some amount_in_with_fee =>
      match mul256 amount_in_with_fee reserve_out with
      | none => none
      | some numerator =>
        match mul256 reserve_in 1000 with
        | none => none
        | some r1000 =>
          match add256 r1000 amount_in_with_fee with
          | none => none
          | some denominator =>
            if denominator = 0 then some (.error "Denominator is zero")
            else some (.ok (numerator / denominator))

/-! ## Log model and event parsers (src/tool.rs, event_parsers module)

A log carries a list of topics (each an `H256`, i.e. exactly 32 bytes by the
Rust type's invariant) and an opaque byte payload.  Bytes are `Nat` in
`[0,256)`.  Topic access `log.topics[i]` in the source is always guarded by a
prior topic-count check, so it is embedded with `List.getD`. -/

structure Log where
  topics : List (List Nat)
  data : List Nat
deriving DecidableEq

/-- Rust slice `&data[a..b]`: panics (`none`) when `a > b` or `b > data.len()`. -/
def slice? (data : List Nat) (a b : Nat) : Option (List Nat) :=
  if a ≤ b ∧ b ≤ data.length then some ((data.drop a).take (b - a)) else none

/-- `U256::from_big_endian` of a byte slice (at most 32 bytes at every call
site modelled here). -/
def from_big_endian (bs : List Nat) : Nat :=
  bs.foldl (fun acc b => acc * 256 + b) 0

/-- Low 20 bytes of a 32-byte topic word: `H160::from_slice(&t.as_bytes()[12..])`. -/
def addr_of_topic (t : List Nat) : List Nat :=
  (t.drop 12).take 20

/-- Embedding of the private helper `bytes_to_i24`: returns 0 on a slice whose
length is not 3, otherwise sign-extends the 3-byte big-endian value to `i32`. -/
def bytes_to_i24 (bs : List Nat) : Int :=
  if bs.length ≠ 3 then 0
  else
    let v : Int := from_big_endian bs
    if Nat.testBit (bs.headI) 7 then v - 2 ^ 24 else v

/-- Embedding of `SwapEvent` (src/types.rs). -/
structure SwapEvent where
  sender : List Nat
  -- field named `to` in the Rust struct (keyword here)
  to_addr : List Nat
  amount0_in : Nat
  amount1_in : Nat
  amount0_out : Nat
  amount1_out : Nat
deriving DecidableEq

/-- Embedding of `event_parsers::parse_swap_log` (src/tool.rs, lines 10-36).
Guards: at least 3 topics, then `data.len() >= 192` (the source checks
`data.len() < 192` even though only bytes 0..128 are read). -/
def parse_swap_log (log : Log) : Option (Except String SwapEvent) :=
  if log.topics.length < 3 then
    some (.error "Invalid swap log: insufficient topics")
  else
    let sender := addr_of_topic (log.topics.getD 1 [])
    let to_addr := addr_of_topic (log.topics.getD 2 [])
    let data := log.data
    if data.length < 192 then
      some (.error "Invalid swap log: insufficient data")
    else
      match slice? data 0 32, slice? data 32 64, slice? data 64 96,
            slice? data 96 128 with
      | some w0, some w1, some w2, some w3 =>
        some (.ok { sender := sender, to_addr := to_addr,
                    amount0_in := from_big_endian w0,
                    amount1_in := from_big_endian w1,
                    amount0_out := from_big_endian w2,
                    amount1_out := from_big_endian w3 })
      | _, _, _, _ => none

/-- Embedding of `V3MintEvent` (src/types.rs). -/
structure V3MintEvent where
  sender : List Nat
  owner : List Nat
  tick_lower : Int
  tick_upper : Int
  amount : Nat
  amount0 : Nat
  amount1 : Nat
deriving DecidableEq

/-- Embedding of `event_parsers::parse_v3_mint_log` (src/tool.rs, lines
138-163).  Guards: at least 4 topics, `data.len() >= 128`; reads packed
3-byte ticks at offsets 0 and 3 and three 32-byte words at offsets 6/38/70. -/
def parse_v3_mint_log (log : Log) : Option (Except String V3MintEvent) :=
  if log.topics.length < 4 then
    some (.error "Invalid V3 mint log: insufficient topics")
  else
    let sender := addr_of_topic (log.topics.getD 1 [])
    let owner := addr_of_topic (log.topics.getD 2 [])
    let data := log.data
    if data.length < 128 then
      some (.error "Invalid V3 mint log: insufficient data")
    else
      match slice? data 0 3, slice? data 3 6, slice? data 6 38,
            slice? data 38 70, slice? data 70 102 with
      | some tl, some tu, some s1, some s2, some s3 =>
        some (.ok { sender := sender, owner := owner,
                    tick_lower := bytes_to_i24 tl,
                    tick_upper := bytes_to_i24 tu,
                    amount := from_big_endian s1,
                    amount0 := from_big_endian s2,
                    amount1 := from_big_endian s3 })
      | _, _, _, _, _ => none

/-- Embedding of `V3BurnEvent` (src/types.rs). -/
structure V3BurnEvent where
  owner : List Nat
  tick_lower : Int
  tick_upper : Int
  amount : Nat
  amount0 : Nat
  amount1 : Nat
deriving DecidableEq

/-- Embedding of `event_parsers::parse_v3_burn_log` (src/tool.rs, lines
165-188).  Guards: at least 4 topics, then `data.len() >= 96` only — yet the
body goes on to slice `data[70..102]`, so data lengths 96..101 pass the guard
and hit an out-of-bounds slice (`none` = panic). -/
def parse_v3_burn_log (log : Log) : Option (Except String V3BurnEvent) :=
  if log.topics.length < 4 then
    some (.error "Invalid V3 burn log: insufficient topics")
  else
    let owner := addr_of_topic (log.topics.getD 1 [])
    let data := log.data
    if data.length < 96 then
      some (.error "Invalid V3 burn log: insufficient data")
    else
      match slice? data 0 3, slice? data 3 6, slice? data 6 38,
            slice? data 38 70, slice? data 70 102 with
      | some tl, some tu, some s1, some s2, some s3 =>
        some (.ok { owner := owner,
                    tick_lower := bytes_to_i24 tl,
                    tick_upper := bytes_to_i24 tu,
                    amount := from_big_endian s1,
                    amount0 := from_big_endian s2,
                    amount1 := from_big_endian s3 })
      | _, _, _, _, _ => none

/-! ## Error type (evm_sdk::types::EvmError, external crate)

Only the variants reached by the modelled code paths are embedded. -/

inductive EvmError where
  | ProviderError (msg : String)
  | ListenerError (msg : String)
  | CalculationError (msg : String)
  | AnalyticsError (msg : String)
deriving DecidableEq

/-! ## Price comparison (src/lib.rs, lines 322-348; src/types.rs)

Addresses are embedded as `Nat`; the `f64` fields of `PriceInfo` are carried
as `ℚ` (they are stored, never branched on, in the modelled code). -/

structure PriceInfo where
  token_in : Nat
  token_out : Nat
  amount_in : Nat
  amount_out : Nat
  price : ℚ
  price_impact : ℚ
  timestamp : Nat

inductive PriceSource where
  | V2
  | V3
deriving DecidableEq

structure PriceComparison where
  v2 : Option PriceInfo
  v3 : Option PriceInfo
  best : PriceSource

/-- Embedding of `PancakeSwapService::get_best_price` (src/lib.rs, lines
323-348), as a function of the two awaited quote results `get_v2_price` /
`get_v3_price` (network reads, passed as inputs).  The source matches on the
pair of results: both ok compares `v2.amount_out > v3.amount_out` (so an
exact tie falls into the `else` branch and picks V3); a single ok picks that
venue; both errors fail with `CalculationError("No price available")`. -/
def get_best_price (v2_price v3_price : Except EvmError PriceInfo) :
    Except EvmError PriceComparison :=
  match v2_price, v3_price with
  | .ok v2, .ok v3 =>
    .ok { v2 := some v2, v3 := some v3,
          best := if v3.amount_out < v2.amount_out then .V2 else .V3 }
  | .ok v2, .error _ => .ok { v2 := some v2, v3 := none, best := .V2 }
  | .error _, .ok v3 => .ok { v2 := none, v3 := some v3, best := .V3 }
  | .error _, .error _ => .error (.CalculationError "No price available")

/-! ## Event listener (src/events.rs)

`EventListenerState` holds the atomic checkpoint `last_block_number` and the
atomic `is_running` flag.  The provider reads (`get_block_number`,
`get_logs`) are environment inputs: a `get_block_number` outcome is an
`Except String Nat` (error message of the failed RPC), a `get_logs` outcome
an `Option (List Log)` with `none` for a failed fetch. -/

structure EventListenerConfig where
  poll_interval_secs : Nat
  max_blocks_per_poll : Nat
  confirmation_blocks : Nat
deriving DecidableEq

/-- `EventListenerConfig::default()` (src/events.rs, lines 26-34). -/
def EventListenerConfig.default : EventListenerConfig :=
  { poll_interval_secs := 3, max_blocks_per_poll := 2000,
    confirmation_blocks := 1 }

structure EventListenerState where
  last_block_number : Nat
  is_running : Bool
deriving DecidableEq

/-- Observable outcome of one `poll_events` call (src/events.rs, lines
270-312): whether a log fetch was issued, the logs dispatched to `on_event`
(in order), the checkpoint afterwards, and whether the call returned `Ok`. -/
structure PollOutcome where
  fetched : Bool
  dispatched : List Log
  last_block_number : Nat
  ok : Bool
deriving DecidableEq

/-- Embedding of `PancakeSwapEventListener::poll_events` (src/events.rs,
lines 270-312).  `last` is the checkpoint read at entry, `height` the
`get_block_number` outcome, `logs` the `get_logs` outcome (consulted only
when a fetch is issued).  Steps, mirroring the source:
`from_block = last + 1`; a failed height read returns `Err` with the
checkpoint untouched; `to_block = min (current - confirmation_blocks)
(from_block + max_blocks_per_poll - 1)` (the u64 subtraction is checked:
`none` = panic when `confirmation_blocks > current`); `from_block > to_block`
is an Ok no-op; otherwise the logs are fetched (a failed fetch returns `Err`,
checkpoint untouched), every log is dispatched, and the checkpoint is set to
`to_block`. -/
def poll_events (config : EventListenerConfig) (last : Nat)
    (height : Except String Nat) (logs : Option (List Log)) :
    Option PollOutcome :=
  let from_block := last + 1
  match height with
  | .error _ => some { fetched := false, dispatched := [],
                       last_block_number := last, ok := false }
  | .ok current =>
    match csub current config.confirmation_blocks with
    | none => none
    | some confirmed =>
      let to_block := min confirmed (from_block + config.max_blocks_per_poll - 1)
      if from_block > to_block then
        some { fetched := false, dispatched := [],
               last_block_number := last, ok := true }
      else
        match logs with
        | none => some { fetched := true, dispatched := [],
                         last_block_number := last, ok := false }
        | some ls => some { fetched := true, dispatched := ls,
                            last_block_number := to_block, ok := true }

/-- Embedding of `PancakeSwapEventListener::start_listener` (src/events.rs,
lines 220-262), up to the spawn of the polling task (state effects only).
Returns the call's result paired with the listener state after the call.
Mirrors the source order: an already-running listener errors with no state
change; otherwise `is_running` is stored `true` FIRST, then the chain height
is read — a failed read propagates the error via `?` without resetting the
flag; a successful read stores `current - confirmation_blocks` (checked u64
subtraction, `none` = panic) as the checkpoint. -/
def start_listener (config : EventListenerConfig) (s : EventListenerState)
    (height : Except String Nat) :
    Option (Except EvmError Unit × EventListenerState) :=
  if s.is_running then
    some (.error (.ListenerError "Listener already running"), s)
  else
    let s1 : EventListenerState := { s with is_running := true }
    match height with
    | .error e =>
      some (.error (.ProviderError ("Failed to get block number: " ++ e)), s1)
    | .ok current =>
      match csub current config.confirmation_blocks with
      | none => none
      | some cp =>
        some (.ok (), { last_block_number := cp, is_running := true })

/-- Embedding of `PancakeSwapEventListener::stop_listener` (src/events.rs,
lines 264-267): stores `false` into `is_running`, touching nothing else. -/
def stop_listener (s : EventListenerState) : EventListenerState :=
  { s with is_running := false }

/-- One observed poll iteration for reasoning about poll sequences: the chain
height returned by `get_block_number` and the `get_logs` outcome. -/
structure PollObs where
  height : Nat
  logs : Option (List Log)

/-- Checkpoint trace of a sequence of polls: runs `poll_events` on each
observation in turn, threading the checkpoint, and returns the checkpoint
after each poll (`none` if some poll panics). -/
def run_polls (config : EventListenerConfig) (last : Nat) :
    List PollObs → Option (List Nat)
  | [] => some []
  | o :: rest =>
    match poll_events config last (.ok o.height) o.logs with
    | none => none
    | some r =>
      match run_polls config r.last_block_number rest with
      | none => none
      | some cs => some (r.last_block_number :: cs)

/-! ## Arbitrage scanner (src/analytics.rs, lines 143-257)

Token addresses are embedded as `Nat`.  `simulate_swap_path` (a network
round trip) is an oracle from a path to an `Except` result; the pair
lookup plus reserves read used by `assess_arbitrage_risk` is an oracle
`pair_liquidity` giving, when both succeed, the combined reserves
`reserve0 + reserve1` of the pair of two consecutive path tokens. -/

inductive RiskLevel where
  | Low
  | Medium
  | High
deriving DecidableEq

structure ArbitrageOpportunity where
  path : List Nat
  expected_profit : ℚ
  profit_percentage : ℚ
  required_amount : ℚ
  risk_level : RiskLevel

/-- Embedding of `AnalyticsService::assess_arbitrage_risk` (src/analytics.rs,
lines 234-257): sums the combined reserves over consecutive path pairs
(skipping pairs whose lookup or reserves read fails), averages over
`path.len() - 1`, then classifies:
over 5% profit or average liquidity under 10000 is High, else over 2% or
under 50000 is Medium, else Low. -/
def assess_arbitrage_risk (pair_liquidity : Nat → Nat → Option ℚ)
    (path : List Nat) (profit_percentage : ℚ) : RiskLevel :=
  let liquidity_score :=
    (List.range (path.length - 1)).foldl
      (fun acc i =>
        match pair_liquidity (path.getD i 0) (path.getD (i + 1) 0) with
        | some liquidity => acc + liquidity
        | none => acc)
      0
  let avg_liquidity := liquidity_score / ((path.length - 1 : Nat) : ℚ)
  if 5 < profit_percentage ∨ avg_liquidity < 10000 then .High
  else if 2 < profit_percentage ∨ avg_liquidity < 50000 then .Medium
  else .Low

/-- Embedding of `AnalyticsService::check_triangular_arbitrage`
(src/analytics.rs, lines 182-232).  `test_amount` is one unit at 18
decimals; both round trips are simulated (an error in either propagates);
the round trip with the larger profit is kept (`if profit1 > profit2`, so an
exact tie keeps round trip 2); `profit_percentage = profit / test_amount *
100`; a percentage strictly below `min_profit_percentage` is the
`AnalyticsError "Profit below threshold"` failure, otherwise the
opportunity is built with the assessed risk level. -/
def check_triangular_arbitrage (simulate : List Nat → Except EvmError ℚ)
    (pair_liquidity : Nat → Nat → Option ℚ)
    (base_token token_a token_b : Nat) (min_profit_percentage : ℚ) :
    Except EvmError ArbitrageOpportunity :=
  let test_amount : ℚ := 10 ^ 18
  let path1 := [base_token, token_a, token_b, base_token]
  match simulate path1 with
  | .error e => .error e
  | .ok result1 =>
    let path2 := [base_token, token_b, token_a, base_token]
    match simulate path2 with
    | .error e => .error e
    | .ok result2 =>
      let profit1 := result1 - test_amount
      let profit2 := result2 - test_amount
      let pick :=
        if profit2 < profit1 then (profit1, path1, result1)
        else (profit2, path2, result2)
      let profit_percentage := pick.1 / test_amount * 100
      if profit_percentage < min_profit_percentage then
        .error (.AnalyticsError "Profit below threshold")
      else
        .ok { path := pick.2.1,
              expected_profit := pick.1,
              profit_percentage := profit_percentage,
              required_amount := test_amount,
              risk_level :=
                assess_arbitrage_risk pair_liquidity pick.2.1
                  profit_percentage }

/-- Embedding of `AnalyticsService::find_arbitrage_opportunities`
(src/analytics.rs, lines 143-180): every ordered pair of distinct tokens
from `intermediate_tokens` is checked, `Ok` results are collected in
discovery order, failures are skipped, and the collection is sorted
descending by `profit_percentage` with a stable sort (`Vec::sort_by`). -/
def find_arbitrage_opportunities (simulate : List Nat → Except EvmError ℚ)
    (pair_liquidity : Nat → Nat → Option ℚ)
    (base_token : Nat) (intermediate_tokens : List Nat)
    (min_profit_percentage : ℚ) : List ArbitrageOpportunity :=
  let opportunities :=
    intermediate_tokens.flatMap (fun token_a =>
      intermediate_tokens.filterMap (fun token_b =>
        if token_a = token_b then none
        else
          (check_triangular_arbitrage simulate pair_liquidity base_token
            token_a token_b min_profit_percentage).toOption))
  opportunities.mergeSort
    (fun a b => decide (b.profit_percentage ≤ a.profit_percentage))

/-! ## Bounded price history (src/analytics.rs, lines 743-763 and
src/price.rs, lines 374-394 — the two methods are textually identical)

The per-token `VecDeque<PriceHistory>` is embedded as a list whose head is
the front (oldest) element; `push_back` appends at the tail, `pop_front`
drops the head.  The `HashMap` entry update touches one token's deque, so
the embedding models one token's history. -/

structure PriceHistory where
  timestamp : Nat
  price : ℚ
  volume : ℚ

/-- Embedding of `record_price_history` for one token: pushes the new sample
at the back, then pops the front sample if the length now exceeds 1000. -/
def record_price_history (history : List PriceHistory)
    (price_data : PriceHistory) : List PriceHistory :=
  let h := history ++ [price_data]
  if 1000 < h.length then h.tail else h

/-! ## Theorems -/

/-- Claim C1, counterexample to the unrestricted statement: at
`amount_in = 2^250`, `reserve_in = reserve_out = 1`, the multiplication
`amount_in * 997` overflows `U256`, so `calculate_amount_out` panics
instead of returning the floor-formula value. -/
theorem calculate_amount_out_overflow_cex :
    calculate_amount_out (2 ^ 250) 1 1 = none ∧
    0 < (2:Nat) ^ 250 ∧
    calculate_amount_out (2 ^ 250) 1 1 ≠
      some (.ok ((997 * 2 ^ 250 * 1) / (1000 * 1 + 997 * 2 ^ 250))) := by
  refine ⟨rfl, by decide, ?_⟩
  rw [show calculate_amount_out (2 ^ 250) 1 1 = none from rfl]
  exact fun h => Option.noConfusion h

/-- Claim C1 (amended): for positive reserves and positive `amount_in`,
provided the intermediate products `997 * amount_in * reserve_out` and
`1000 * reserve_in + 997 * amount_in` fit in 256 bits,
`calculate_amount_out` returns exactly
`floor (997 * amount_in * reserve_out / (1000 * reserve_in + 997 * amount_in))`. -/
theorem calculate_amount_out_formula (amount_in reserve_in reserve_out : Nat)
    (hin : 0 < reserve_in) (hout : 0 < reserve_out) (ha : 0 < amount_in)
    (hnum : 997 * amount_in * reserve_out < U256_MOD)
    (hden : 1000 * reserve_in + 997 * amount_in < U256_MOD) :
    calculate_amount_out amount_in reserve_in reserve_out =
      some (.ok ((997 * amount_in * reserve_out) /
                 (1000 * reserve_in + 997 * amount_in))) := by
  have hfee : amount_in * 997 < U256_MOD := by
    have h1 : amount_in * 997 ≤ 997 * amount_in * reserve_out := by
      calc amount_in * 997 = 997 * amount_in * 1 := by ring
        _ ≤ 997 * amount_in * reserve_out := by
            exact Nat.mul_le_mul_left _ hout
    omega
  have e1 : mul256 amount_in 997 = some (amount_in * 997) := by
    unfold mul256
    exact if_pos hfee
  have hnum' : amount_in * 997 * reserve_out < U256_MOD := by
    have : amount_in * 997 * reserve_out = 997 * amount_in * reserve_out := by
      ring
    omega
  have e2 : mul256 (amount_in * 997) reserve_out =
      some (amount_in * 997 * reserve_out) := by
    unfold mul256
    exact if_pos hnum'
  have hr1000 : reserve_in * 1000 < U256_MOD := by
    have : reserve_in * 1000 = 1000 * reserve_in := by ring
    omega
  have e3 : mul256 reserve_in 1000 = some (reserve_in * 1000) := by
    unfold mul256
    exact if_pos hr1000
  have hsum : reserve_in * 1000 + amount_in * 997 < U256_MOD := by
    have : reserve_in * 1000 + amount_in * 997 =
        1000 * reserve_in + 997 * amount_in := by ring
    omega
  have e4 : add256 (reserve_in * 1000) (amount_in * 997) =
      some (reserve_in * 1000 + amount_in * 997) := by
    unfold add256
    exact if_pos hsum
  have hden0 : reserve_in * 1000 + amount_in * 997 ≠ 0 := by positivity
  simp only [calculate_amount_out]
  rw [if_neg (Nat.pos_iff_ne_zero.mp ha),
    if_neg (show ¬(reserve_in = 0 ∨ reserve_out = 0) by omega)]
  simp only [e1, e2, e3, e4]
  rw [if_neg hden0,
    show amount_in * 997 * reserve_out = 997 * amount_in * reserve_out by ring,
    show reserve_in * 1000 + amount_in * 997 =
      1000 * reserve_in + 997 * amount_in by ring]

/-- Claim C1 witness: the spec's own worked example with
`reserve_in = 1000`, `reserve_out = 500`, `amount_in = 10`; the returned
value is `floor (4985000 / 1009970) = 4`. -/
theorem calculate_amount_out_formula_witness :
    0 < (1000:Nat) ∧ 0 < (500:Nat) ∧ 0 < (10:Nat) ∧
    997 * 10 * 500 < U256_MOD ∧ 1000 * 1000 + 997 * 10 < U256_MOD ∧
    calculate_amount_out 10 1000 500 =
      some (.ok ((997 * 10 * 500) / (1000 * 1000 + 997 * 10))) ∧
    (997 * 10 * 500) / (1000 * 1000 + 997 * 10) = 4 :=
  ⟨by decide, by decide, by decide, by decide, by decide,
   calculate_amount_out_formula 10 1000 500 (by decide) (by decide)
     (by decide) (by decide) (by decide), by decide⟩

set_option maxRecDepth 4000 in
/-- Claim C2: `parse_v3_burn_log` is not total — a log with 4 topics and a
96-byte data payload passes the `data.len() < 96` guard but panics on the
out-of-bounds slice `data[70..102]` (`none` is the panic in this model),
instead of returning the malformed-log error the spec requires. -/
theorem parse_v3_burn_log_panics_on_96_byte_data :
    parse_v3_burn_log
      { topics := List.replicate 4 (List.replicate 32 0),
        data := List.replicate 96 0 } = none := rfl

set_option maxRecDepth 4000 in
/-- Claim C3: a Swap log with 3 topics and exactly 128 bytes of data — the
event's full four-word payload, which the claim says must decode — is
rejected by `parse_swap_log`, whose guard demands 192 bytes although the
function reads only bytes 0..128. -/
theorem parse_swap_log_rejects_128_byte_data :
    parse_swap_log
      { topics := List.replicate 3 (List.replicate 32 0),
        data := List.replicate 128 0 } =
      some (.error "Invalid swap log: insufficient data") := rfl

/-- Claim C4, counterexample: when both venues quote the exact same
`amount_out`, `get_best_price` selects V3 (the `else` branch of
`v2.amount_out > v3.amount_out`), not V2 as claimed. -/
theorem get_best_price_tie_cex :
    get_best_price
      (.ok { token_in := 0, token_out := 1, amount_in := 7, amount_out := 5,
             price := 0, price_impact := 0, timestamp := 0 })
      (.ok { token_in := 0, token_out := 1, amount_in := 7, amount_out := 5,
             price := 0, price_impact := 0, timestamp := 0 }) =
      .ok { v2 := some { token_in := 0, token_out := 1, amount_in := 7,
                         amount_out := 5, price := 0, price_impact := 0,
                         timestamp := 0 },
            v3 := some { token_in := 0, token_out := 1, amount_in := 7,
                         amount_out := 5, price := 0, price_impact := 0,
                         timestamp := 0 },
            best := .V3 } ∧
    PriceSource.V3 ≠ PriceSource.V2 :=
  ⟨rfl, by decide⟩

/-- Claim C4 (amended): when both quotes succeed the venue with the strictly
larger `amount_out` is selected and an exact tie selects the
concentrated-liquidity (V3) venue; if exactly one quote succeeds that venue
is selected; if both fail the call fails with the no-price-available error. -/
theorem get_best_price_selection (v2 v3 : PriceInfo) (err2 err3 : EvmError) :
    get_best_price (.ok v2) (.ok v3) =
      .ok { v2 := some v2, v3 := some v3,
            best := if v3.amount_out < v2.amount_out then .V2 else .V3 } ∧
    get_best_price (.ok v2) (.error err3) =
      .ok { v2 := some v2, v3 := none, best := .V2 } ∧
    get_best_price (.error err2) (.ok v3) =
      .ok { v2 := none, v3 := some v3, best := .V3 } ∧
    get_best_price (.error err2) (.error err3) =
      .error (.CalculationError "No price available") :=
  ⟨rfl, rfl, rfl, rfl⟩

/-- Claim C6: whenever `from_block = last + 1` exceeds
`to_block = min (current - confirmation_blocks)
(from_block + max_blocks_per_poll - 1)`, the poll is an Ok no-op: no log
fetch is issued, nothing is dispatched, the checkpoint is unchanged. -/
theorem poll_events_noop (config : EventListenerConfig) (last current : Nat)
    (logs : Option (List Log))
    (hconf : config.confirmation_blocks ≤ current)
    (hgt : min (current - config.confirmation_blocks)
             (last + 1 + config.max_blocks_per_poll - 1) < last + 1) :
    poll_events config last (.ok current) logs =
      some { fetched := false, dispatched := [],
             last_block_number := last, ok := true } := by
  simp only [poll_events, csub, if_pos hconf]
  rw [if_pos hgt]

/-- Claim C6 witness: the spec's instance — `current_height = 100`,
`confirmation_blocks = 1` (default config), checkpoint `99`: `from = 100 >
to = min 99 2098 = 99`, so the checkpoint stays `99` and nothing is
fetched. -/
theorem poll_events_noop_witness :
    EventListenerConfig.default.confirmation_blocks ≤ 100 ∧
    min (100 - EventListenerConfig.default.confirmation_blocks)
      (99 + 1 + EventListenerConfig.default.max_blocks_per_poll - 1) < 99 + 1 ∧
    poll_events EventListenerConfig.default 99 (.ok 100) (some []) =
      some { fetched := false, dispatched := [],
             last_block_number := 99, ok := true } :=
  ⟨by decide, by decide,
   poll_events_noop EventListenerConfig.default 99 100 (some [])
     (by decide) (by decide)⟩

/-- Claim C7: restarting a stopped listener does NOT resume from the old
checkpoint — `start_listener` overwrites it with
`current_height - confirmation_blocks`.  A listener stopped at checkpoint
99 and restarted at chain height 200 (confirmation lag 1) resumes with
checkpoint 199, so its first poll starts at block 200, not 100: blocks
100..199 are skipped. -/
theorem start_listener_resets_checkpoint :
    stop_listener { last_block_number := 99, is_running := true } =
      { last_block_number := 99, is_running := false } ∧
    start_listener EventListenerConfig.default
      (stop_listener { last_block_number := 99, is_running := true })
      (.ok 200) =
      some (.ok (), { last_block_number := 199, is_running := true }) ∧
    199 + 1 ≠ 99 + 1 :=
  ⟨rfl, rfl, by decide⟩

/-- Claim C10: if `start_listener` is called on a non-running listener and
the initial height read fails, the call returns the provider error with the
running flag already stored `true` and not reset; every subsequent
`start_listener` call on that state then fails with the already-running
listener error (and changes nothing). -/
theorem start_listener_stuck_running (config : EventListenerConfig)
    (s : EventListenerState) (e : String) (hs : s.is_running = false) :
    start_listener config s (.error e) =
      some (.error (.ProviderError ("Failed to get block number: " ++ e)),
            { s with is_running := true }) ∧
    ∀ height, start_listener config { s with is_running := true } height =
      some (.error (.ListenerError "Listener already running"),
            { s with is_running := true }) := by
  constructor
  · simp [start_listener, hs]
  · intro height
    simp [start_listener]

/-- Claim C10 witness: a fresh listener (checkpoint 0, not running) whose
first height read fails with message "boom", then restarted with a healthy
chain at height 5. -/
theorem start_listener_stuck_running_witness :
    start_listener EventListenerConfig.default
      { last_block_number := 0, is_running := false } (.error "boom") =
      some (.error (.ProviderError ("Failed to get block number: " ++ "boom")),
            { last_block_number := 0, is_running := true }) ∧
    ∀ height,
      start_listener EventListenerConfig.default
        { last_block_number := 0, is_running := true } height =
        some (.error (.ListenerError "Listener already running"),
              { last_block_number := 0, is_running := true }) :=
  start_listener_stuck_running EventListenerConfig.default
    { last_block_number := 0, is_running := false } "boom" rfl

/-- Helper for claim C9: folding `record_price_history` from a history of at
most 1000 samples keeps, of the concatenated stream, exactly the most recent
1000 samples (`Nat` subtraction truncates at zero). -/
theorem foldl_record_price_history (l : List PriceHistory)
    (h : List PriceHistory) (hh : h.length ≤ 1000) :
    List.foldl record_price_history h l =
      (h ++ l).drop (h.length + l.length - 1000) := by
  induction l generalizing h with
  | nil =>
    simp [Nat.sub_eq_zero_of_le hh]
  | cons s rest ih =>
    rcases Nat.lt_or_ge h.length 1000 with hlt | hge
    · have hrec : record_price_history h s = h ++ [s] := by
        unfold record_price_history
        rw [if_neg (by
          simp only [List.length_append, List.length_cons, List.length_nil]
          omega)]
      have hlen : (h ++ [s]).length ≤ 1000 := by
        simp only [List.length_append, List.length_cons, List.length_nil]
        omega
      calc List.foldl record_price_history h (s :: rest)
          = List.foldl record_price_history (h ++ [s]) rest := by
            rw [List.foldl_cons, hrec]
        _ = ((h ++ [s]) ++ rest).drop ((h ++ [s]).length + rest.length - 1000) := ih _ hlen
        _ = (h ++ s :: rest).drop (h.length + (s :: rest).length - 1000) := by
            rw [List.append_assoc, List.singleton_append,
              show (h ++ [s]).length + rest.length - 1000 =
                  h.length + (s :: rest).length - 1000 from by
                simp only [List.length_append, List.length_cons, List.length_nil]
                omega]
    · have heq : h.length = 1000 := le_antisymm hh hge
      obtain ⟨a, t, rfl⟩ : ∃ a t, h = a :: t := by
        cases h with
        | nil => simp at heq
        | cons a t => exact ⟨a, t, rfl⟩
      simp only [List.length_cons] at heq
      have hrec : record_price_history (a :: t) s = t ++ [s] := by
        unfold record_price_history
        rw [if_pos (by
          simp only [List.cons_append, List.length_append, List.length_cons,
            List.length_nil]
          omega)]
        simp
      have hlen : (t ++ [s]).length ≤ 1000 := by
        simp only [List.length_append, List.length_cons, List.length_nil]
        omega
      calc List.foldl record_price_history (a :: t) (s :: rest)
          = List.foldl record_price_history (t ++ [s]) rest := by
            rw [List.foldl_cons, hrec]
        _ = ((t ++ [s]) ++ rest).drop ((t ++ [s]).length + rest.length - 1000) := ih _ hlen
        _ = (a :: t ++ s :: rest).drop ((a :: t).length + (s :: rest).length - 1000) := by
            rw [List.append_assoc, List.singleton_append,
              show (t ++ [s]).length + rest.length - 1000 = rest.length from by
                simp only [List.length_append, List.length_cons, List.length_nil]
                omega,
              show (a :: t).length + (s :: rest).length - 1000 =
                  rest.length + 1 from by
                simp only [List.length_cons]
                omega]
            rfl

/-- Claim C9: the per-token history never exceeds 1000 samples under any
sequence of recordings from an empty store; a recording onto a history of
exactly 1000 samples appends the new sample and evicts exactly the front
(oldest) one; after 1001 recordings from empty the store holds the last
1000 samples — the first-recorded sample is gone. -/
theorem record_price_history_fifo (l : List PriceHistory)
    (h : List PriceHistory) (s : PriceHistory) (hlen : h.length = 1000) :
    (List.foldl record_price_history [] l).length ≤ 1000 ∧
    record_price_history h s = h.tail ++ [s] ∧
    (l.length = 1001 →
      List.foldl record_price_history [] l = l.drop 1 ∧
      (List.foldl record_price_history [] l).length = 1000) := by
  refine ⟨?_, ?_, ?_⟩
  · rw [foldl_record_price_history l [] (by simp)]
    simp only [List.nil_append, List.length_nil, List.length_drop, Nat.zero_add]
    omega
  · obtain ⟨a, t, rfl⟩ : ∃ a t, h = a :: t := by
      cases h with
      | nil => simp at hlen
      | cons a t => exact ⟨a, t, rfl⟩
    simp only [List.length_cons] at hlen
    unfold record_price_history
    rw [if_pos (by
      simp only [List.cons_append, List.length_append, List.length_cons,
        List.length_nil]
      omega)]
    simp
  · intro h1001
    have hfold := foldl_record_price_history l [] (by simp)
    simp only [List.nil_append, List.length_nil, Nat.zero_add] at hfold
    rw [h1001] at hfold
    rw [show (1001:Nat) - 1000 = 1 from by omega] at hfold
    refine ⟨hfold, ?_⟩
    rw [hfold, List.length_drop, h1001]

/-- Claim C9 witness: 1001 recordings of a concrete sample starting from the
empty store, and one recording onto a full 1000-sample history. -/
theorem record_price_history_fifo_witness :
    (List.replicate 1000
      ({ timestamp := 0, price := 0, volume := 0 } : PriceHistory)).length
      = 1000 ∧
    ((List.foldl record_price_history []
        (List.replicate 1001
          ({ timestamp := 0, price := 0, volume := 0 } : PriceHistory))).length
        ≤ 1000 ∧
     record_price_history
        (List.replicate 1000
          ({ timestamp := 0, price := 0, volume := 0 } : PriceHistory))
        { timestamp := 0, price := 0, volume := 0 } =
        (List.replicate 1000
          ({ timestamp := 0, price := 0, volume := 0 } : PriceHistory)).tail
          ++ [{ timestamp := 0, price := 0, volume := 0 }] ∧
     ((List.replicate 1001
          ({ timestamp := 0, price := 0, volume := 0 } : PriceHistory)).length
          = 1001 →
       List.foldl record_price_history []
          (List.replicate 1001
            ({ timestamp := 0, price := 0, volume := 0 } : PriceHistory)) =
          (List.replicate 1001
            ({ timestamp := 0, price := 0, volume := 0 } : PriceHistory)).drop 1
          ∧
       (List.foldl record_price_history []
          (List.replicate 1001
            ({ timestamp := 0, price := 0, volume := 0 } : PriceHistory))).length
          = 1000)) :=
  ⟨by simp,
   record_price_history_fifo
     (List.replicate 1001 { timestamp := 0, price := 0, volume := 0 })
     (List.replicate 1000 { timestamp := 0, price := 0, volume := 0 })
     { timestamp := 0, price := 0, volume := 0 } (by simp)⟩

/-- Helper for claim C5: one poll with a successfully read height `current`
satisfying `last + confirmation_blocks ≤ current` never panics, never moves
the checkpoint backwards, and leaves it at most
`current - confirmation_blocks`. -/
theorem poll_events_step (config : EventListenerConfig) (last current : Nat)
    (logs : Option (List Log))
    (hband : last + config.confirmation_blocks ≤ current) :
    ∃ r, poll_events config last (.ok current) logs = some r ∧
      last ≤ r.last_block_number ∧
      r.last_block_number + config.confirmation_blocks ≤ current := by
  have hc : config.confirmation_blocks ≤ current := by omega
  have e : csub current config.confirmation_blocks =
      some (current - config.confirmation_blocks) := by
    unfold csub
    exact if_pos hc
  simp only [poll_events, e]
  by_cases hft : min (current - config.confirmation_blocks)
      (last + 1 + config.max_blocks_per_poll - 1) < last + 1
  · rw [if_pos hft]
    exact ⟨_, rfl, le_refl _, hband⟩
  · rw [if_neg hft]
    cases logs with
    | none => exact ⟨_, rfl, le_refl _, hband⟩
    | some ls =>
      refine ⟨_, rfl, ?_, ?_⟩
      · show last ≤ min (current - config.confirmation_blocks)
          (last + 1 + config.max_blocks_per_poll - 1)
        omega
      · show min (current - config.confirmation_blocks)
            (last + 1 + config.max_blocks_per_poll - 1) +
            config.confirmation_blocks ≤ current
        omega

/-- Helper for claim C5: a `≤`-chain stays a chain when its head is lowered. -/
theorem chain_le_weaken {a b : Nat} {l : List Nat} (hba : b ≤ a)
    (h : List.Chain (fun x y => x ≤ y) a l) :
    List.Chain (fun x y => x ≤ y) b l := by
  cases l with
  | nil => exact List.Chain.nil
  | cons c l2 =>
    rw [List.chain_cons] at h ⊢
    exact ⟨le_trans hba h.1, h.2⟩

/-- Claim C5: over any sequence of polls whose observed chain heights are
non-decreasing and start no lower than the running listener's checkpoint
band (`init + confirmation_blocks ≤` first height — established by
`start_listener`, which sets the checkpoint to `height -
confirmation_blocks`), no poll panics, the checkpoint sequence is
monotonically non-decreasing, and after every poll the checkpoint is at
most `height - confirmation_blocks` for the height observed at that poll. -/
theorem poll_checkpoint_monotone (config : EventListenerConfig) (init : Nat)
    (obs : List PollObs)
    (hchain : List.Chain (fun a b => a ≤ b)
      (init + config.confirmation_blocks) (obs.map PollObs.height)) :
    ∃ cs, run_polls config init obs = some cs ∧
      List.Chain (fun a b => a ≤ b) init cs ∧
      ∀ p ∈ cs.zip obs, p.1 + config.confirmation_blocks ≤ p.2.height := by
  induction obs generalizing init with
  | nil => exact ⟨[], rfl, List.Chain.nil, by simp⟩
  | cons o rest ih =>
    rw [List.map_cons, List.chain_cons] at hchain
    obtain ⟨hho, hrest⟩ := hchain
    obtain ⟨r, hr, hle, hbound⟩ := poll_events_step config init o.height o.logs hho
    have hrest2 : List.Chain (fun a b => a ≤ b)
        (r.last_block_number + config.confirmation_blocks)
        (rest.map PollObs.height) := chain_le_weaken hbound hrest
    obtain ⟨cs, hrun, hcs, hzip⟩ := ih r.last_block_number hrest2
    refine ⟨r.last_block_number :: cs, ?_, ?_, ?_⟩
    · simp only [run_polls, hr, hrun]
    · rw [List.chain_cons]
      exact ⟨hle, hcs⟩
    · intro p hp
      rw [List.zip_cons_cons, List.mem_cons] at hp
      rcases hp with h1 | h2
      · rw [h1]
        exact hbound
      · exact hzip p h2

/-- Claim C5 witness: default config (confirmation lag 1), checkpoint 99,
three polls observing heights 100, 105, 105 — the middle one with a failed
log fetch. -/
theorem poll_checkpoint_monotone_witness :
    List.Chain (fun a b => a ≤ b)
      (99 + EventListenerConfig.default.confirmation_blocks)
      (([⟨100, some []⟩, ⟨105, none⟩, ⟨105, some []⟩] : List PollObs).map
        PollObs.height) ∧
    ∃ cs, run_polls EventListenerConfig.default 99
        [⟨100, some []⟩, ⟨105, none⟩, ⟨105, some []⟩] = some cs ∧
      List.Chain (fun a b => a ≤ b) 99 cs ∧
      ∀ p ∈ cs.zip ([⟨100, some []⟩, ⟨105, none⟩, ⟨105, some []⟩] : List PollObs),
        p.1 + EventListenerConfig.default.confirmation_blocks ≤ p.2.height :=
  ⟨by simp [List.chain_cons, EventListenerConfig.default],
   poll_checkpoint_monotone EventListenerConfig.default 99
     [⟨100, some []⟩, ⟨105, none⟩, ⟨105, some []⟩]
     (by simp [List.chain_cons, EventListenerConfig.default])⟩

/-- Helper for claim C8: a successfully returned arbitrage opportunity
carries a `profit_percentage` at least `min_profit_percentage` — the only
`Ok` exit of `check_triangular_arbitrage` is behind the threshold test. -/
theorem check_triangular_arbitrage_ok_ge
    (simulate : List Nat → Except EvmError ℚ)
    (pair_liquidity : Nat → Nat → Option ℚ)
    (base_token token_a token_b : Nat) (min_profit_percentage : ℚ)
    (opp : ArbitrageOpportunity)
    (h : check_triangular_arbitrage simulate pair_liquidity base_token
      token_a token_b min_profit_percentage = .ok opp) :
    min_profit_percentage ≤ opp.profit_percentage := by
  unfold check_triangular_arbitrage at h
  cases hc1 : simulate [base_token, token_a, token_b, base_token] with
  | error e =>
    simp only [hc1] at h
    exact Except.noConfusion h
  | ok r1 =>
    simp only [hc1] at h
    cases hc2 : simulate [base_token, token_b, token_a, base_token] with
    | error e =>
      simp only [hc2] at h
      exact Except.noConfusion h
    | ok r2 =>
      simp only [hc2] at h
      split at h
      · split at h
        · exact Except.noConfusion h
        · rename_i hneg
          injection h with heq
          rw [← heq]
          exact not_lt.mp hneg
      · split at h
        · exact Except.noConfusion h
        · rename_i hneg
          injection h with heq
          rw [← heq]
          exact not_lt.mp hneg

/-- Claim C8: a token pair whose better round trip has a profit percentage
strictly below the caller's `min_profit_percentage` yields the
profit-below-threshold error (not a zero-profit result); consequently every
opportunity in the list returned by `find_arbitrage_opportunities` has
`profit_percentage ≥ min_profit_percentage`. -/
theorem arbitrage_threshold (simulate : List Nat → Except EvmError ℚ)
    (pair_liquidity : Nat → Nat → Option ℚ)
    (base_token token_a token_b : Nat) (min_profit_percentage : ℚ)
    (r1 r2 : ℚ)
    (h1 : simulate [base_token, token_a, token_b, base_token] = .ok r1)
    (h2 : simulate [base_token, token_b, token_a, base_token] = .ok r2)
    (hlow : (if r2 - 10 ^ 18 < r1 - 10 ^ 18 then r1 - 10 ^ 18
             else r2 - 10 ^ 18) / 10 ^ 18 * 100 < min_profit_percentage) :
    check_triangular_arbitrage simulate pair_liquidity base_token token_a
      token_b min_profit_percentage =
      .error (.AnalyticsError "Profit below threshold") ∧
    ∀ tokens (opp : ArbitrageOpportunity),
      opp ∈ find_arbitrage_opportunities simulate pair_liquidity base_token
        tokens min_profit_percentage →
      min_profit_percentage ≤ opp.profit_percentage := by
  constructor
  · simp only [check_triangular_arbitrage, h1, h2]
    have hpick : (if r2 - (10:ℚ) ^ 18 < r1 - 10 ^ 18
        then (r1 - 10 ^ 18, [base_token, token_a, token_b, base_token], r1)
        else (r2 - 10 ^ 18, [base_token, token_b, token_a, base_token], r2)).1
        = (if r2 - (10:ℚ) ^ 18 < r1 - 10 ^ 18 then r1 - 10 ^ 18
           else r2 - 10 ^ 18) := by
      split
      · rfl
      · rfl
    rw [hpick, if_pos hlow]
  · intro tokens opp hmem
    unfold find_arbitrage_opportunities at hmem
    have hmem2 := List.mem_mergeSort.mp hmem
    rw [List.mem_flatMap] at hmem2
    obtain ⟨a, ha, hmem3⟩ := hmem2
    rw [List.mem_filterMap] at hmem3
    obtain ⟨b, hb, hsome⟩ := hmem3
    by_cases hab : a = b
    · rw [if_pos hab] at hsome
      exact Option.noConfusion hsome
    · rw [if_neg hab] at hsome
      have hok : check_triangular_arbitrage simulate pair_liquidity
          base_token a b min_profit_percentage = .ok opp := by
        cases hc : check_triangular_arbitrage simulate pair_liquidity
            base_token a b min_profit_percentage with
        | error e =>
          rw [hc] at hsome
          simp [Except.toOption] at hsome
        | ok o =>
          rw [hc] at hsome
          simp [Except.toOption] at hsome
          rw [hsome]
      exact check_triangular_arbitrage_ok_ge simulate pair_liquidity
        base_token a b min_profit_percentage opp hok

/-- Claim C8 witness: an oracle returning exactly the probe amount on every
path (zero profit on both round trips) against a 2% threshold: the pair is
rejected with the threshold error, and every returned opportunity over any
token set clears the threshold. -/
theorem arbitrage_threshold_witness :
    ((fun _ => (.ok (10 ^ 18) : Except EvmError ℚ))
        [0, 1, 2, 0] = .ok (10 ^ 18) ∧
     (if (10:ℚ) ^ 18 - 10 ^ 18 < (10:ℚ) ^ 18 - 10 ^ 18
      then (10:ℚ) ^ 18 - 10 ^ 18 else (10:ℚ) ^ 18 - 10 ^ 18) / 10 ^ 18 * 100
       < 2) ∧
    check_triangular_arbitrage (fun _ => .ok (10 ^ 18)) (fun _ _ => none)
      0 1 2 2 = .error (.AnalyticsError "Profit below threshold") ∧
    ∀ tokens (opp : ArbitrageOpportunity),
      opp ∈ find_arbitrage_opportunities (fun _ => .ok (10 ^ 18))
        (fun _ _ => none) 0 tokens 2 →
      (2:ℚ) ≤ opp.profit_percentage := by
  have hlow : (if (10:ℚ) ^ 18 - 10 ^ 18 < (10:ℚ) ^ 18 - 10 ^ 18
      then (10:ℚ) ^ 18 - 10 ^ 18 else (10:ℚ) ^ 18 - 10 ^ 18) / 10 ^ 18 * 100
      < 2 := by
    rw [if_neg (lt_irrefl _), sub_self, zero_div, zero_mul]
    exact zero_lt_two
  exact ⟨⟨rfl, hlow⟩,
    arbitrage_threshold (fun _ => .ok (10 ^ 18)) (fun _ _ => none)
      0 1 2 2 (10 ^ 18) (10 ^ 18) rfl rfl hlow⟩

end PancakeSdk
